import Mathlib

set_option linter.unusedVariables false

/-!
Verification development for the SyndrumNET scoring core.

The definitions below are a shallow embedding of the Python sources under
`src/syndrumnet/`.  Conventions used throughout:

* Python floats are modelled as `ℚ`; every float computation in the scoring
  path is exact rational arithmetic except `np.std` (a square root) and
  `scipy.stats.spearmanr` (a Pearson quotient with square roots).  Those two
  primitives are irrational-valued, so the pipeline is parametrised by them
  (`stdFn`, `corrFn`) and the exact real-valued Spearman correlation is
  defined separately over `ℝ` for the transcriptional claims.
* Python sets are modelled as lists; a Python set always iterates in some
  fixed (hash-determined) order, which the list order represents.  Where the
  code constructs a fresh set, the model deduplicates.
* Python dictionaries are association lists in insertion order.
* Fallible code returns `Except PyErr`.  `null_models.py` references the
  names `Optional` and `Tuple` without importing them, so importing that
  module raises `NameError` at `def`-time annotation evaluation; that
  actual semantics is modelled by `pyImportNullModels` and the `call*`
  wrappers.  The plain function bodies are additionally modelled as they
  would execute with deferred annotation evaluation, which is the semantics
  the rest of the specification describes; even then the misuse of `_get_bin`
  raises `TypeError` inside `_build_degree_bins`.
-/

/-- Python exception values that the embedded code can raise. -/
inductive PyErr where
  | nameError (n : String)
  | typeError (msg : String)
  | valueError (msg : String)
deriving DecidableEq

/-- Dynamically typed Python values, as far as `_get_bin` needs them:
numbers, strings and (nested) lists. -/
inductive PyVal where
  | num (q : ℚ)
  | str (s : String)
  | list (l : List PyVal)

/-- Python `a <= b` on dynamic values: defined for two numbers or two
strings, a `TypeError` otherwise (in particular for `list <= int`). -/
def pyLe : PyVal → PyVal → Except PyErr Bool
  | PyVal.num a, PyVal.num b => Except.ok (a ≤ b)
  | PyVal.str a, PyVal.str b => Except.ok (a.data ≤ b.data)
  | _, _ => Except.error (PyErr.typeError "unsupported operand types for <=")

/-- Python `a < b` on dynamic values, same domain as `pyLe`. -/
def pyLt : PyVal → PyVal → Except PyErr Bool
  | PyVal.num a, PyVal.num b => Except.ok (a < b)
  | PyVal.str a, PyVal.str b => Except.ok (a.data < b.data)
  | _, _ => Except.error (PyErr.typeError "unsupported operand types for <")

/-- The scan `for i in range(len(bin_edges) - 1): if bin_edges[i] <= degree <
bin_edges[i+1]: return i` from `_get_bin` (null_models.py lines 129-131).
The chained comparison short-circuits: the right comparison is evaluated only
when the left one is true.  `fb` is the fallback `len(bin_edges) - 2`. -/
def getBinScan (d : PyVal) : List PyVal → ℕ → ℚ → Except PyErr PyVal
  | e1 :: e2 :: rest, i, fb => do
    let b1 ← pyLe e1 d
    if b1 then do
      let b2 ← pyLt d e2
      if b2 then Except.ok (PyVal.num i) else getBinScan d (e2 :: rest) (i + 1) fb
    else getBinScan d (e2 :: rest) (i + 1) fb
  | _, _, fb => Except.ok (PyVal.num fb)

/-- The body of `_get_bin(degree, bin_edges)` (null_models.py lines 127-132),
after the two positional parameters have been bound. -/
def getBinBody (d : PyVal) : PyVal → Except PyErr PyVal
  | PyVal.list edges => getBinScan d edges 0 ((edges.length : ℚ) - 2)
  | _ => Except.error (PyErr.typeError "object of this type has no len()")

/-- The `TypeError` raised when `_get_bin` is called with the wrong number
of positional arguments. -/
def getBinArityError : PyErr :=
  PyErr.typeError "get_bin takes 2 positional arguments but more were given"

/-- Calling `_get_bin` with an argument list.  The `def` has exactly two
positional parameters, so any other arity raises `TypeError` before the body
runs; this is what the three-argument call site in `_build_degree_bins`
(line 121) hits. -/
def getBinCall : List PyVal → Except PyErr PyVal
  | [d, edges] => getBinBody d edges
  | _ => Except.error getBinArityError

/-- Names bound at module level in `null_models.py`: the two plain imports,
the three names imported from `typing` on line 10, the two library aliases
and the logger.  `Optional` and `Tuple` are referenced (lines 22 and 177-178)
but are not in this list. -/
def nullModelsGlobals : List String :=
  ["logging", "random", "Dict", "List", "Set", "nx", "np", "logger"]

/-- Python builtins visible from any module body. -/
def pyBuiltins : List String := ["int", "float", "str", "set", "len", "range", "dict", "list"]

/-- Name lookup during evaluation of `null_models.py` module code. -/
def resolveGlobal (n : String) : Except PyErr Unit :=
  if n ∈ nullModelsGlobals ∨ n ∈ pyBuiltins then Except.ok ()
  else Except.error (PyErr.nameError n)

/-- Importing `syndrumnet.metrics.null_models` executes the module body; the
`def degree_preserving_randomization` statement evaluates its signature
annotations (`nx.Graph`, `Set[str]`, `int`, `Optional[int]`, `List[Set[str]]`)
left to right, and the lookup of `Optional` (line 22) raises `NameError`. -/
def pyImportNullModels : Except PyErr Unit :=
  ["nx", "Set", "str", "int", "Optional", "List"].foldlM
    (fun _ n => resolveGlobal n) ()

/-! ### Graph model (networkx `Graph` as used by the scoring path) -/

/-- An undirected networkx graph: a node list (in insertion order) and an
edge list.  An edge `(u, v)` connects `u` and `v` in both directions. -/
structure PyGraph where
  nodes : List String
  edges : List (String × String)

/-- Adjacency in a `PyGraph`. -/
def PyGraph.adjacent (G : PyGraph) (u v : String) : Bool :=
  G.edges.contains (u, v) || G.edges.contains (v, u)

/-- The degree of a node, `G.degree()[v]` for a simple graph. -/
def PyGraph.degreeOf (G : PyGraph) (v : String) : ℕ :=
  (G.nodes.filter (fun u => G.adjacent v u)).length

/-- Vertices at distance at most `k` from `s` (the `k`-th BFS layer union).
`ball G s 0 = [s]`; each step adds every node adjacent to the ball. -/
def PyGraph.ball (G : PyGraph) (s : String) : ℕ → List String
  | 0 => [s]
  | k + 1 =>
    let B := G.ball s k
    B ++ G.nodes.filter (fun v => !B.contains v && B.any (fun u => G.adjacent u v))

/-- Model of `nx.shortest_path_length(G, s, t)`: the BFS distance, `none` when no
path exists (networkx raises `NetworkXNoPath`, which the caller absorbs). -/
def PyGraph.dist (G : PyGraph) (s t : String) : Option ℕ :=
  (List.range (G.nodes.length + 1)).find? (fun k => (G.ball s k).contains t)

/-! ### `metrics/distances.py` -/

/-- The inner loop of `shortest_path_distance` (lines 61-71): starting from
`min_dist = infinity_value`, take the minimum over every target that the
source reaches; an unreachable target is skipped (`except NetworkXNoPath`). -/
def srcMinDist (G : PyGraph) (s : String) (targets : List String) (inf : ℚ) : ℚ :=
  targets.foldl
    (fun md t =>
      match G.dist s t with
      | some d => min md (d : ℚ)
      | none => md)
    inf

/-- Model of `shortest_path_distance(G, source_set, target_set, infinity_value)`
(lines 17-75): filter both sets to the network, return the sentinel when
either intersection is empty, otherwise average the per-source minima. -/
def shortest_path_distance (G : PyGraph) (source_set target_set : List String)
    (infinity_value : ℚ := 1000) : ℚ :=
  let src := source_set.dedup.filter (fun s => G.nodes.contains s)
  let tgt := target_set.dedup.filter (fun t => G.nodes.contains t)
  if src = [] ∨ tgt = [] then infinity_value
  else ((src.map (fun s => srcMinDist G s tgt infinity_value)).sum) / (src.length : ℚ)

/-- Model of `separation_score(G, module_a, module_b)` (lines 108-153):
`s_AB = (d_AB + d_BA)/2 - (d_AA + d_BB)/2`. -/
def separation_score (G : PyGraph) (module_a module_b : List String) : ℚ :=
  let d_ab := shortest_path_distance G module_a module_b
  let d_ba := shortest_path_distance G module_b module_a
  let d_between := (d_ab + d_ba) / 2
  let d_aa := shortest_path_distance G module_a module_a
  let d_bb := shortest_path_distance G module_b module_b
  let d_within := (d_aa + d_bb) / 2
  d_between - d_within

/-! ### `metrics/null_models.py`, function bodies under deferred annotations -/

/-- Model of `np.percentile(xs, q)` with the default linear interpolation, for a
sorted sample `xs`. -/
def npPercentile (xs : List ℚ) (q : ℚ) : ℚ :=
  match xs with
  | [] => 0
  | _ :: _ =>
    let pos := q * ((xs.length : ℚ) - 1) / 100
    let i := ⌊pos⌋.toNat
    let frac := pos - (i : ℚ)
    let lo := xs.getD i 0
    let hi := xs.getD (i + 1) lo
    lo + frac * (hi - lo)

/-- Append a gene to the bin with the given index (`bins[bin_idx].append`). -/
def appendToBin (bins : List (List String)) (i : ℕ) (g : String) : List (List String) :=
  bins.set i (bins.getD i [] ++ [g])

/-- Read a `_get_bin` result back as a list index (dead code in practice:
`_build_degree_bins` raises before any result is produced). -/
def pyIndex : PyVal → ℕ
  | PyVal.num q => q.num.toNat
  | _ => 0

/-- Model of `_build_degree_bins(degrees, n_bins)` (lines 93-124): compute the
percentile bin edges, then assign every gene via
`_get_bin(degree, bins, bin_edges)` — a three-argument call to the
two-parameter `_get_bin`, so the first iteration raises `TypeError`. -/
def buildDegreeBins (degrees : List (String × ℕ)) (n_bins : ℕ) :
    Except PyErr (List (List String)) :=
  let degree_values := (degrees.map (fun gd => (gd.2 : ℚ))).insertionSort (· ≤ ·)
  let percentiles := (List.range (n_bins + 1)).map (fun k => (100 * k : ℚ) / (n_bins : ℚ))
  let bin_edges := percentiles.map (npPercentile degree_values)
  degrees.foldlM
    (fun bins gd => do
      let idx ← getBinCall [PyVal.num (gd.2 : ℚ),
        PyVal.list (bins.map (fun b => PyVal.list (b.map PyVal.str))),
        PyVal.list (bin_edges.map PyVal.num)]
      Except.ok (appendToBin bins (pyIndex idx) gd.1))
    (List.replicate n_bins [])

/-- Model of `set.add` on the list model of a Python set: append when absent. -/
def setAdd (s : List String) (g : String) : List String :=
  if s.contains g then s else s ++ [g]

/-- The sampling loop for one random module (lines 78-85): for each degree
bin of the module, `random.choice` one candidate from that bin and add it to
the sample set.  `stream` is the stream of random indices produced by the
global Mersenne twister; an empty candidate pool draws nothing and consumes
no randomness. -/
def drawSample : List ℕ → List (List String) → List ℕ → List String
  | [], _, _ => []
  | bin_idx :: rest, bins, stream =>
    let candidates := bins.getD bin_idx []
    if candidates.isEmpty then drawSample rest bins stream
    else setAdd (drawSample rest bins stream.tail)
      (candidates.getD (stream.headD 0 % candidates.length) "")

/-- All `n_random` samples of the outer loop (lines 75-86), consuming the
random stream one index per drawn gene. -/
def drawSamples (n_random : ℕ) (module_bins : List ℕ) (bins : List (List String))
    (stream : List ℕ) : List (List String) :=
  match n_random with
  | 0 => []
  | n + 1 =>
    drawSample module_bins bins stream ::
      drawSamples n module_bins bins (stream.drop module_bins.length)

/-- The body of `degree_preserving_randomization(G, module, n_random, seed)`
(lines 18-90) as it would execute with deferred annotation evaluation.
`stream` abstracts the global `random` stream that `random.seed(seed)`
deterministically resets.  A module with no gene in the network returns `[]`
before the degree bins are built; otherwise `_build_degree_bins` raises. -/
def degree_preserving_randomization (G : PyGraph) (module : List String)
    (n_random : ℕ) (seed : Option ℤ) (stream : List ℕ) :
    Except PyErr (List (List String)) :=
  let module' := module.dedup.filter (fun g => G.nodes.contains g)
  if module'.length = 0 then Except.ok []
  else do
    let degrees := G.nodes.map (fun v => (v, G.degreeOf v))
    let degree_bins ← buildDegreeBins degrees 20
    let module_bins ← module'.mapM (fun gene =>
      getBinCall [PyVal.num ((G.degreeOf gene : ℚ)),
        PyVal.list (degree_bins.map (fun b => PyVal.list (b.map PyVal.str)))])
    Except.ok (drawSamples n_random (module_bins.map pyIndex) degree_bins stream)

/-- Model of `compute_zscore(observed, null_distribution)` (lines 135-169), with
`np.std` abstracted as `stdFn` (its value is an irrational square root); the
two zero guards of the code are modelled exactly. -/
def compute_zscore (stdFn : List ℚ → ℚ) (observed : ℚ) (nulls : List ℚ) : ℚ :=
  if nulls.length = 0 then 0
  else
    let null_mean := nulls.sum / (nulls.length : ℚ)
    let null_std := stdFn nulls
    if null_std = 0 then 0 else (observed - null_mean) / null_std

/-- The body of `compute_normalized_proximity` (lines 172-222).  The
empirical p-value `np.mean([...])` is `nan` on an empty list, modelled as
`none`; every caller in the scoring path discards it. -/
def compute_normalized_proximity (stdFn : List ℚ → ℚ) (G : PyGraph)
    (disease_module drug_module : List String) (n_random : ℕ) (seed : Option ℤ)
    (stream : List ℕ) : Except PyErr (ℚ × ℚ × Option ℚ) := do
  let observed := shortest_path_distance G disease_module drug_module
  let random_modules ← degree_preserving_randomization G drug_module n_random seed stream
  let null_proximities := random_modules.map
    (fun m => shortest_path_distance G disease_module m)
  let z := compute_zscore stdFn observed null_proximities
  let p : Option ℚ :=
    if null_proximities.length = 0 then none
    else some (((null_proximities.filter (fun x => x ≤ observed)).length : ℚ) /
      (null_proximities.length : ℚ))
  Except.ok (observed, z, p)

/-! ### `metrics/null_models.py`, actual call-time semantics

Under Python's default (eager) annotation evaluation the module body itself
raises, so no function in it can ever be called; these wrappers model a call
made from outside the module, which must first import it. -/

/-- Calling `degree_preserving_randomization` requires importing its module,
which raises `NameError: Optional`. -/
def callDegreePreservingRandomization (G : PyGraph) (module : List String)
    (n_random : ℕ) (seed : Option ℤ) (stream : List ℕ) :
    Except PyErr (List (List String)) := do
  let _ ← pyImportNullModels
  degree_preserving_randomization G module n_random seed stream

/-- Calling `compute_normalized_proximity` likewise requires the import. -/
def callComputeNormalizedProximity (stdFn : List ℚ → ℚ) (G : PyGraph)
    (disease_module drug_module : List String) (n_random : ℕ) (seed : Option ℤ)
    (stream : List ℕ) : Except PyErr (ℚ × ℚ × Option ℚ) := do
  let _ ← pyImportNullModels
  compute_normalized_proximity stdFn G disease_module drug_module n_random seed stream

/-! ### `metrics/transcription.py` -/

/-- The genes common to two signatures
(`set(signature_a.keys()) & set(signature_b.keys())`, line 44), iterated in
the key order of the first signature.  Spearman correlation of paired data
is invariant under a common permutation, so the hash iteration order of the
Python set does not affect the correlation value. -/
def commonGenes (sig_a sig_b : List (String × ℚ)) : List String :=
  (sig_a.map (fun p => p.1)).dedup.filter (fun g => (sig_b.lookup g).isSome)

/-- The value vector of a signature restricted to the given genes
(`[signature[g] for g in common_genes]`, lines 51-52). -/
def alignedVals (sig : List (String × ℚ)) (genes : List String) : List ℚ :=
  genes.map (fun g => (sig.lookup g).getD 0)

/-- Model of `scipy.stats.rankdata` with average ranks for ties, as used inside
`spearmanr`: the rank of `x` is (number below `x`) + (ties + 1)/2. -/
def rankdata (xs : List ℚ) : List ℚ :=
  xs.map (fun x =>
    ((xs.filter (fun y => y < x)).length : ℚ) +
      (((xs.filter (fun y => y = x)).length : ℚ) + 1) / 2)

/-- Centered second moments of two paired samples: covariance and the two
variances (each scaled by the common factor `n`, which cancels in the
correlation quotient). -/
def pearsonStats (xs ys : List ℚ) : ℚ × ℚ × ℚ :=
  let n := (xs.length : ℚ)
  let mx := xs.sum / n
  let my := ys.sum / n
  let cov := ((xs.zip ys).map (fun p => (p.1 - mx) * (p.2 - my))).sum
  let vx := (xs.map (fun x => (x - mx) ^ 2)).sum
  let vy := (ys.map (fun y => (y - my) ^ 2)).sum
  (cov, vx, vy)

/-- Pearson correlation over `ℝ`.  A zero variance makes `scipy` return
`nan`, which `compute_correlation` maps to `0` (lines 62-64); the model
returns `0` directly in that case. -/
noncomputable def pearsonR (xs ys : List ℚ) : ℝ :=
  let s := pearsonStats xs ys
  if s.2.1 = 0 ∨ s.2.2 = 0 then 0
  else (s.1 : ℝ) / (Real.sqrt (s.2.1 : ℚ) * Real.sqrt (s.2.2 : ℚ))

/-- Model of `spearmanr(values_a, values_b)`: Pearson correlation of the rank
vectors. -/
noncomputable def spearmanR (xs ys : List ℚ) : ℝ :=
  pearsonR (rankdata xs) (rankdata ys)

/-- Model of `compute_correlation(signature_a, signature_b, method='spearman')`
(lines 17-66), exact real-valued version: fewer than 3 common genes give
similarity 0 with a diagnostic. -/
noncomputable def compute_correlation (sig_a sig_b : List (String × ℚ)) : ℝ :=
  let common := commonGenes sig_a sig_b
  if common.length < 3 then 0
  else spearmanR (alignedVals sig_a common) (alignedVals sig_b common)

/-- The signed drug signature built on lines 102-106: `+1` for up-regulated
genes, `-1` for down-regulated genes; the `down` loop runs second, so a gene
in both sets ends at `-1`. -/
def signedDrugSig (up down : List String) : List (String × ℚ) :=
  (up ++ down).dedup.map (fun g => (g, if down.contains g then (-1 : ℚ) else 1))

/-- Model of `transcriptional_similarity(disease_signature, up, down)` (lines
69-115), exact real-valued version: minus the Spearman correlation of the
disease signature with the signed drug signature. -/
noncomputable def transcriptional_similarity (disease_signature : List (String × ℚ))
    (drug_signature_up drug_signature_down : List String) : ℝ :=
  -(compute_correlation disease_signature
      (signedDrugSig drug_signature_up drug_signature_down))

/-- Model of `compute_correlation` with the `spearmanr` float primitive abstracted as
`corrFn`, for use inside the (rational-valued) prediction records; the
common-gene guard is modelled exactly. -/
def compute_correlationQ (corrFn : List ℚ → List ℚ → ℚ)
    (sig_a sig_b : List (String × ℚ)) : ℚ :=
  let common := commonGenes sig_a sig_b
  if common.length < 3 then 0
  else corrFn (alignedVals sig_a common) (alignedVals sig_b common)

/-- Model of `transcriptional_similarity` with the correlation primitive abstracted. -/
def transcriptional_similarityQ (corrFn : List ℚ → List ℚ → ℚ)
    (disease_signature : List (String × ℚ)) (up down : List String) : ℚ :=
  -(compute_correlationQ corrFn disease_signature (signedDrugSig up down))

/-! ### `scoring/tqab.py` -/

/-- Model of `compute_tqab(G, disease_module, drug_a_module, drug_b_module)` (lines
26-108): separation-based three-way classification with the pinned constants
3.0, 10.0 and 5.0. -/
def compute_tqab (G : PyGraph) (disease_module drug_a_module drug_b_module : List String) :
    ℚ × String :=
  let s_ab := separation_score G drug_a_module drug_b_module
  let d_aq := shortest_path_distance G drug_a_module disease_module
  let d_bq := shortest_path_distance G drug_b_module disease_module
  let d_q_mean := (d_aq + d_bq) / 2
  if 0 < s_ab then
    if d_aq < 3 ∧ d_bq < 3 then (1 - d_q_mean / 10, "complementary")
    else (1 / 2 - d_q_mean / 10, "intermediate")
  else (-|s_ab| / 5, "redundant")

/-- Model of `compute_tqab_batch` (lines 111-152): pairs with a missing drug module
are skipped with a warning, everything else is scored into the result
dictionary in enumeration order. -/
def compute_tqab_batch (G : PyGraph) (disease_module : List String)
    (drug_modules : List (String × List String)) (drug_pairs : List (String × String)) :
    List ((String × String) × (ℚ × String)) :=
  drug_pairs.foldl
    (fun results p =>
      match drug_modules.lookup p.1, drug_modules.lookup p.2 with
      | some ma, some mb => results ++ [(p, compute_tqab G disease_module ma mb)]
      | _, _ => results)
    []

/-! ### `scoring/pqab.py` -/

/-- The body of `compute_pqab` (lines 15-71) past its lazy import:
z-normalized proximities of both drugs (seeds `seed` and `seed + 1`),
averaged and sign-inverted. -/
def compute_pqab (stdFn : List ℚ → ℚ) (G : PyGraph)
    (disease_module drug_a_module drug_b_module : List String)
    (n_randomizations : ℕ) (seed : ℤ) (stream : List ℕ) :
    Except PyErr (ℚ × ℚ × ℚ) := do
  let ra ← compute_normalized_proximity stdFn G disease_module drug_a_module
    n_randomizations (some seed) stream
  let rb ← compute_normalized_proximity stdFn G disease_module drug_b_module
    n_randomizations (some (seed + 1)) stream
  let z_qa := ra.2.1
  let z_qb := rb.2.1
  let pqab := (z_qa + z_qb) / 2
  Except.ok (-pqab, z_qa, z_qb)

/-- Calling `compute_pqab` under actual Python semantics: the function body
begins with `from syndrumnet.metrics.null_models import ...` (line 50),
which raises because that module cannot be imported. -/
def callComputePqab (stdFn : List ℚ → ℚ) (G : PyGraph)
    (disease_module drug_a_module drug_b_module : List String)
    (n_randomizations : ℕ) (seed : ℤ) (stream : List ℕ) :
    Except PyErr (ℚ × ℚ × ℚ) := do
  let _ ← pyImportNullModels
  compute_pqab stdFn G disease_module drug_a_module drug_b_module
    n_randomizations seed stream

/-- Model of `compute_pqab_batch` (lines 74-122): pairs missing a drug module are
skipped; each scored pair goes through `compute_pqab`. -/
def compute_pqab_batch (stdFn : List ℚ → ℚ) (G : PyGraph)
    (disease_module : List String) (drug_modules : List (String × List String))
    (drug_pairs : List (String × String)) (n_randomizations : ℕ) (seed : ℤ)
    (stream : List ℕ) :
    Except PyErr (List ((String × String) × (ℚ × ℚ × ℚ))) :=
  drug_pairs.foldlM
    (fun results p =>
      match drug_modules.lookup p.1, drug_modules.lookup p.2 with
      | some ma, some mb => do
        let r ← compute_pqab stdFn G disease_module ma mb n_randomizations seed stream
        Except.ok (results ++ [(p, r)])
      | _, _ => Except.ok results)
    []

/-! ### `scoring/cqab.py` -/

/-- Model of `compute_cqab` (lines 13-70): per-drug inverse correlations, averaged. -/
def compute_cqab (corrFn : List ℚ → List ℚ → ℚ) (disease_signature : List (String × ℚ))
    (a_up a_down b_up b_down : List String) : ℚ × ℚ × ℚ :=
  let c_qa := transcriptional_similarityQ corrFn disease_signature a_up a_down
  let c_qb := transcriptional_similarityQ corrFn disease_signature b_up b_down
  ((c_qa + c_qb) / 2, c_qa, c_qb)

/-- Model of `compute_cqab_batch` (lines 73-111): pairs whose drug has no signature
entry are skipped. -/
def compute_cqab_batch (corrFn : List ℚ → List ℚ → ℚ)
    (disease_signature : List (String × ℚ))
    (drug_signatures : List (String × List String × List String))
    (drug_pairs : List (String × String)) :
    List ((String × String) × (ℚ × ℚ × ℚ)) :=
  drug_pairs.foldl
    (fun results p =>
      match drug_signatures.lookup p.1, drug_signatures.lookup p.2 with
      | some da, some db =>
        results ++ [(p, compute_cqab corrFn disease_signature da.1 da.2 db.1 db.2)]
      | _, _ => results)
    []

/-! ### `scoring/predictor.py` -/

/-- One row of the predictions table (the dict literal on lines 174-187). -/
structure PredictionRecord where
  disease : String
  drug_a : String
  drug_b : String
  tqab : ℚ
  pqab : ℚ
  cqab : ℚ
  prediction_score : ℚ
  topology_class : String
  pqa : ℚ
  pqb : ℚ
  cqa : ℚ
  cqb : ℚ
deriving DecidableEq

/-- All unordered drug pairs in enumeration order (lines 117-120):
`for i, drug_a in enumerate(names): for drug_b in names[i+1:]`. -/
def enumeratePairs : List String → List (String × String)
  | [] => []
  | a :: rest => rest.map (fun b => (a, b)) ++ enumeratePairs rest

/-- Model of `if max_pairs: drug_pairs = drug_pairs[:max_pairs]` (lines 122-123);
note that both `None` and `0` are falsy, so `max_pairs=0` does not
truncate. -/
def truncatePairs (max_pairs : Option ℕ) (pairs : List (String × String)) :
    List (String × String) :=
  match max_pairs with
  | none => pairs
  | some n => if n = 0 then pairs else pairs.take n

/-- One emitted record (lines 166-187): each component is fetched from its
batch dictionary with the zero default (`'unknown'` as the topology class
for a missing T result), and the final score is the plain sum. -/
def mkRecord (disease : String) (p : String × String)
    (tq : List ((String × String) × (ℚ × String)))
    (pq : List ((String × String) × (ℚ × ℚ × ℚ)))
    (cq : List ((String × String) × (ℚ × ℚ × ℚ))) : PredictionRecord :=
  { disease := disease
    drug_a := p.1
    drug_b := p.2
    tqab := ((tq.lookup p).getD (0, "unknown")).1
    pqab := ((pq.lookup p).getD (0, 0, 0)).1
    cqab := ((cq.lookup p).getD (0, 0, 0)).1
    prediction_score := ((tq.lookup p).getD (0, "unknown")).1 +
      ((pq.lookup p).getD (0, 0, 0)).1 + ((cq.lookup p).getD (0, 0, 0)).1
    topology_class := ((tq.lookup p).getD (0, "unknown")).2
    pqa := ((pq.lookup p).getD (0, 0, 0)).2.1
    pqb := ((pq.lookup p).getD (0, 0, 0)).2.2
    cqa := ((cq.lookup p).getD (0, 0, 0)).2.1
    cqb := ((cq.lookup p).getD (0, 0, 0)).2.2 }

/-- The record list before sorting, one record per enumerated pair. -/
def buildRecords (disease : String) (drug_pairs : List (String × String))
    (tq : List ((String × String) × (ℚ × String)))
    (pq : List ((String × String) × (ℚ × ℚ × ℚ)))
    (cq : List ((String × String) × (ℚ × ℚ × ℚ))) : List PredictionRecord :=
  drug_pairs.map (fun p => mkRecord disease p tq pq cq)

/-- Ascending comparison on the sort key of `sort_values('prediction_score')`. -/
def scoreLE (r1 r2 : PredictionRecord) : Prop :=
  r1.prediction_score ≤ r2.prediction_score

instance : DecidableRel scoreLE :=
  fun r1 r2 => inferInstanceAs (Decidable (r1.prediction_score ≤ r2.prediction_score))

instance : IsTotal PredictionRecord scoreLE :=
  ⟨fun r1 r2 => le_total r1.prediction_score r2.prediction_score⟩

instance : IsTrans PredictionRecord scoreLE :=
  ⟨fun _ _ _ h h' => le_trans h h'⟩

/-- Model of `df.sort_values('prediction_score', ascending=False)` (line 192): pandas
argsorts ascending and reverses the permutation for `ascending=False`.  The
ascending argsort is modelled as a stable insertion sort, which is exact for
the small frames evaluated here (numpy's quicksort falls back to insertion
sort below 16 elements); for larger frames only sortedness, not tie order,
is used. -/
def sortValuesDesc (records : List PredictionRecord) : List PredictionRecord :=
  (records.insertionSort scoreLE).reverse

/-- The CQAB stage guard (lines 154-161):
`if self.disease_signatures and disease in self.disease_signatures`, where
`None` and the empty dict are both falsy. -/
def cqabStage (corrFn : List ℚ → List ℚ → ℚ)
    (disease_signatures : Option (List (String × List (String × ℚ))))
    (drug_modules : List (String × List String × List String))
    (disease : String) (drug_pairs : List (String × String)) :
    List ((String × String) × (ℚ × ℚ × ℚ)) :=
  match disease_signatures with
  | none => []
  | some sigs =>
    if sigs = [] then []
    else
      match sigs.lookup disease with
      | some sig => compute_cqab_batch corrFn sig drug_modules drug_pairs
      | none => []

/-- Model of `SynergyPredictor.predict_all(disease, max_pairs)` (lines 81-196) for a
predictor whose modules have been set: unknown disease raises `ValueError`;
otherwise enumerate the pairs, run the three batch stages (T and C are
total, P is fallible), combine per-pair records with zero defaults, and sort
descending by `prediction_score`. -/
def predict_all (corrFn : List ℚ → List ℚ → ℚ) (stdFn : List ℚ → ℚ)
    (network : PyGraph) (disease_modules : List (String × List String))
    (drug_modules : List (String × List String × List String))
    (disease_signatures : Option (List (String × List (String × ℚ))))
    (disease : String) (max_pairs : Option ℕ) (n_randomizations : ℕ) (seed : ℤ)
    (stream : List ℕ) : Except PyErr (List PredictionRecord) :=
  match disease_modules.lookup disease with
  | none => Except.error (PyErr.valueError ("Unknown disease: " ++ disease))
  | some disease_module =>
    let drug_names := drug_modules.map (fun d => d.1)
    let drug_pairs := truncatePairs max_pairs (enumeratePairs drug_names)
    let drug_module_sets := drug_modules.map (fun d => (d.1, (d.2.1 ++ d.2.2).dedup))
    let tqab_results := compute_tqab_batch network disease_module drug_module_sets drug_pairs
    match compute_pqab_batch stdFn network disease_module drug_module_sets drug_pairs
        n_randomizations seed stream with
    | Except.error e => Except.error e
    | Except.ok pqab_results =>
      let cqab_results := cqabStage corrFn disease_signatures drug_modules disease drug_pairs
      Except.ok (sortValuesDesc
        (buildRecords disease drug_pairs tqab_results pqab_results cqab_results))

/-! ### The specification's tie-break order (section 5, "Ordering
guarantees"): descending score, lexicographic on `(drug_a, drug_b)` among
equal scores. -/

/-- Lexicographic comparison of character lists (strict). -/
def lexLt : List Char → List Char → Bool
  | [], [] => false
  | [], _ :: _ => true
  | _ :: _, [] => false
  | c :: cs, d :: ds => if c < d then true else if d < c then false else lexLt cs ds

/-- Strict lexicographic order on strings. -/
def strLt (a b : String) : Prop := lexLt a.data b.data = true

/-- Lexicographic order on strings. -/
def strLe (a b : String) : Prop := a = b ∨ strLt a b

instance (a b : String) : Decidable (strLt a b) :=
  inferInstanceAs (Decidable (_ = true))

instance (a b : String) : Decidable (strLe a b) :=
  inferInstanceAs (Decidable (_ ∨ _))

/-- The record order the specification claims for the emitted table:
descending by score, and lexicographic on `(drug_a, drug_b)` among equal
scores. -/
def specTieOrder (r1 r2 : PredictionRecord) : Prop :=
  r2.prediction_score < r1.prediction_score ∨
    (r1.prediction_score = r2.prediction_score ∧
      (strLt r1.drug_a r2.drug_a ∨
        (r1.drug_a = r2.drug_a ∧ strLe r1.drug_b r2.drug_b)))

instance (r1 r2 : PredictionRecord) : Decidable (specTieOrder r1 r2) :=
  inferInstanceAs (Decidable (_ ∨ _))

/-! ### Concrete fixtures used by witnesses and counterexamples -/

/-- Stand-in for the `spearmanr` float primitive in concrete runs where it
is never consulted (no signature reaches the correlation call). -/
def zeroCorr : List ℚ → List ℚ → ℚ := fun _ _ => 0

/-- Stand-in for the `np.std` float primitive in concrete runs where it is
never consulted (the null distribution is always empty there). -/
def zeroStd : List ℚ → ℚ := fun _ => 0

/-- A graph with no nodes: every module is disjoint from it, so every
distance is the sentinel and the null sampler returns no samples. -/
def emptyNet : PyGraph := ⟨[], []⟩

/-- The path `A-B-C-D-E` of scenario S1 plus the isolated vertex `Z` of
scenario S6. -/
def pathS6 : PyGraph :=
  ⟨["A", "B", "C", "D", "E", "Z"], [("A", "B"), ("B", "C"), ("C", "D"), ("D", "E")]⟩

/-- A small graph for the null-model fixtures. -/
def tinyGraph : PyGraph := ⟨["a", "b", "c", "d"], [("a", "b"), ("c", "d")]⟩

/-- One disease module fixture. -/
def exDiseaseModules : List (String × List String) := [("d0", ["q1"])]

/-- Three drugs inserted in the non-alphabetical order `a, c, b`, each with
a module disjoint from `emptyNet`. -/
def exDrugsFive : List (String × List String × List String) :=
  [("a", ["u1"], []), ("c", ["u2"], []), ("b", ["u3"], [])]

/-- Two drugs with modules disjoint from `emptyNet`. -/
def exDrugsTwo : List (String × List String × List String) :=
  [("a", ["u1"], []), ("b", ["u2"], [])]

/-- A disease signature sharing no gene with the drug modules above. -/
def exSigs : List (String × List (String × ℚ)) := [("d0", [("g1", 1)])]

/-- The all-zero record emitted for a pair on `emptyNet`. -/
def zeroRec (da db : String) : PredictionRecord :=
  { disease := "d0", drug_a := da, drug_b := db, tqab := 0, pqab := 0, cqab := 0,
    prediction_score := 0, topology_class := "redundant",
    pqa := 0, pqb := 0, cqa := 0, cqb := 0 }

/-- The table emitted for `exDrugsFive` on `emptyNet` (enumeration order
`(a,c), (a,b), (c,b)`, all scores tied, reversed by the descending sort). -/
def exDfFive : List PredictionRecord :=
  [zeroRec "c" "b", zeroRec "a" "b", zeroRec "a" "c"]

/-- The table emitted for `exDrugsTwo` on `emptyNet`. -/
def exDfTwo : List PredictionRecord := [zeroRec "a" "b"]

/-- The S4 disease signature sigma_Q = \x7bG1: +2, G2: +1.5, G3: -1\x7d. -/
def sigS4 : List (String × ℚ) := [("G1", 2), ("G2", 3/2), ("G3", -1)]

/-! ## Helper lemmas -/

theorem ebind_ok {ε α β : Type} (a : α) (f : α → Except ε β) :
    (Except.ok a : Except ε α) >>= f = f a := rfl

theorem ebind_err {ε α β : Type} (e : ε) (f : α → Except ε β) :
    (Except.error e : Except ε α) >>= f = Except.error e := rfl

theorem srcMinDist_le_init (G : PyGraph) (s : String) :
    ∀ (l : List String) (inf : ℚ), srcMinDist G s l inf ≤ inf := by
  intro l
  induction l with
  | nil => intro inf; exact le_refl _
  | cons t ts ih =>
    intro inf
    cases h : G.dist s t with
    | some d =>
      calc srcMinDist G s (t :: ts) inf = srcMinDist G s ts (min inf d) := by
            simp [srcMinDist, h]
        _ ≤ min inf d := ih _
        _ ≤ inf := min_le_left _ _
    | none =>
      calc srcMinDist G s (t :: ts) inf = srcMinDist G s ts inf := by
            simp [srcMinDist, h]
        _ ≤ inf := ih _

theorem srcMinDist_nonneg (G : PyGraph) (s : String) :
    ∀ (l : List String) (inf : ℚ), 0 ≤ inf → 0 ≤ srcMinDist G s l inf := by
  intro l
  induction l with
  | nil => intro inf h; exact h
  | cons t ts ih =>
    intro inf h
    cases hd : G.dist s t with
    | some d =>
      have : srcMinDist G s (t :: ts) inf = srcMinDist G s ts (min inf d) := by
        simp [srcMinDist, hd]
      rw [this]
      exact ih _ (le_min h (by positivity))
    | none =>
      have : srcMinDist G s (t :: ts) inf = srcMinDist G s ts inf := by
        simp [srcMinDist, hd]
      rw [this]
      exact ih _ h

theorem srcMinDist_le_dist (G : PyGraph) (s : String) :
    ∀ (l : List String) (inf : ℚ) (t : String) (d : ℕ),
      t ∈ l → G.dist s t = some d → srcMinDist G s l inf ≤ d := by
  intro l
  induction l with
  | nil => intro inf t d ht; exact absurd ht (List.not_mem_nil t)
  | cons a ts ih =>
    intro inf t d ht hd
    rcases List.mem_cons.mp ht with rfl | hts
    · have : srcMinDist G s (t :: ts) inf = srcMinDist G s ts (min inf d) := by
        simp [srcMinDist, hd]
      rw [this]
      exact le_trans (srcMinDist_le_init G s ts _) (min_le_right _ _)
    · cases ha : G.dist s a with
      | some e =>
        have : srcMinDist G s (a :: ts) inf = srcMinDist G s ts (min inf e) := by
          simp [srcMinDist, ha]
        rw [this]
        exact ih _ t d hts hd
      | none =>
        have : srcMinDist G s (a :: ts) inf = srcMinDist G s ts inf := by
          simp [srcMinDist, ha]
        rw [this]
        exact ih _ t d hts hd

theorem srcMinDist_all_none (G : PyGraph) (s : String) :
    ∀ (l : List String) (inf : ℚ), (∀ t ∈ l, G.dist s t = none) →
      srcMinDist G s l inf = inf := by
  intro l
  induction l with
  | nil => intro inf _; rfl
  | cons t ts ih =>
    intro inf h
    have ht := h t (List.mem_cons_self t ts)
    have : srcMinDist G s (t :: ts) inf = srcMinDist G s ts inf := by
      simp [srcMinDist, ht]
    rw [this]
    exact ih _ (fun u hu => h u (List.mem_cons_of_mem t hu))

theorem pyGraph_dist_self (G : PyGraph) (s : String) : G.dist s s = some 0 := by
  unfold PyGraph.dist
  rw [List.range_succ_eq_map]
  have h0 : s ∈ G.ball s 0 := by simp [PyGraph.ball]
  simp [List.find?, h0]

theorem mem_sortValuesDesc {r : PredictionRecord} {l : List PredictionRecord} :
    r ∈ sortValuesDesc l ↔ r ∈ l := by
  unfold sortValuesDesc
  rw [List.mem_reverse]
  exact (List.perm_insertionSort scoreLE l).mem_iff

theorem length_sortValuesDesc (l : List PredictionRecord) :
    (sortValuesDesc l).length = l.length := by
  unfold sortValuesDesc
  rw [List.length_reverse, List.length_insertionSort]

theorem pairwise_sortValuesDesc (l : List PredictionRecord) :
    (sortValuesDesc l).Pairwise
      (fun r1 r2 => r2.prediction_score ≤ r1.prediction_score) := by
  unfold sortValuesDesc
  refine List.pairwise_reverse.mpr ?_
  exact List.sorted_insertionSort scoreLE l

theorem predict_all_ok_elim
    {corrFn : List ℚ → List ℚ → ℚ} {stdFn : List ℚ → ℚ} {network : PyGraph}
    {dms : List (String × List String)}
    {drms : List (String × List String × List String)}
    {sigs : Option (List (String × List (String × ℚ)))} {disease : String}
    {mp : Option ℕ} {n : ℕ} {seed : ℤ} {stream : List ℕ}
    {df : List PredictionRecord} {Q : List String}
    (hQ : dms.lookup disease = some Q)
    (h : predict_all corrFn stdFn network dms drms sigs disease mp n seed stream =
      Except.ok df) :
    ∃ pqv,
      compute_pqab_batch stdFn network Q
        (drms.map (fun d => (d.1, (d.2.1 ++ d.2.2).dedup)))
        (truncatePairs mp (enumeratePairs (drms.map (fun d => d.1)))) n seed stream =
        Except.ok pqv ∧
      df = sortValuesDesc (buildRecords disease
        (truncatePairs mp (enumeratePairs (drms.map (fun d => d.1))))
        (compute_tqab_batch network Q
          (drms.map (fun d => (d.1, (d.2.1 ++ d.2.2).dedup)))
          (truncatePairs mp (enumeratePairs (drms.map (fun d => d.1)))))
        pqv
        (cqabStage corrFn sigs drms disease
          (truncatePairs mp (enumeratePairs (drms.map (fun d => d.1)))))) := by
  simp only [predict_all, hQ] at h
  rcases hp : compute_pqab_batch stdFn network Q
      (drms.map (fun d => (d.1, (d.2.1 ++ d.2.2).dedup)))
      (truncatePairs mp (enumeratePairs (drms.map (fun d => d.1)))) n seed stream with
    e | pqv
  · rw [hp] at h
    exact absurd h (by simp)
  · rw [hp] at h
    exact ⟨pqv, hp, ((Except.ok.injEq _ _).mp h).symm⟩

theorem spd_emptyNet (S T : List String) (inf : ℚ) :
    shortest_path_distance emptyNet S T inf = inf := by
  simp [shortest_path_distance, emptyNet]

theorem dpr_emptyNet (m : List String) (n : ℕ) (s : Option ℤ) (st : List ℕ) :
    degree_preserving_randomization emptyNet m n s st = Except.ok [] := by
  simp [degree_preserving_randomization, emptyNet]

theorem cnp_emptyNet (stdFn : List ℚ → ℚ) (q m : List String) (n : ℕ)
    (s : Option ℤ) (st : List ℕ) :
    compute_normalized_proximity stdFn emptyNet q m n s st =
      Except.ok (1000, 0, none) := by
  simp [compute_normalized_proximity, dpr_emptyNet, ebind_ok, spd_emptyNet,
    compute_zscore]

theorem pqab_emptyNet (stdFn : List ℚ → ℚ) (q a b : List String) (n : ℕ)
    (seed : ℤ) (st : List ℕ) :
    compute_pqab stdFn emptyNet q a b n seed st = Except.ok (0, 0, 0) := by
  simp [compute_pqab, cnp_emptyNet, ebind_ok]

theorem tqab_emptyNet (q a b : List String) :
    compute_tqab emptyNet q a b = (0, "redundant") := by
  simp [compute_tqab, separation_score, spd_emptyNet]

theorem pair_beq (a b c d : String) : ((a, b) == (c, d)) = (a == c && b == d) := rfl

theorem eval_predict_five :
    predict_all zeroCorr zeroStd emptyNet exDiseaseModules exDrugsFive none "d0"
      none 5 42 [] = Except.ok exDfFive := by
  simp [predict_all, exDiseaseModules, exDrugsFive, List.lookup, enumeratePairs,
    truncatePairs, compute_tqab_batch, compute_pqab_batch, cqabStage,
    tqab_emptyNet, pqab_emptyNet, ebind_ok, buildRecords, mkRecord,
    sortValuesDesc, List.insertionSort, List.orderedInsert, scoreLE,
    exDfFive, zeroRec, pair_beq]

theorem eval_predict_two_nosig :
    predict_all zeroCorr zeroStd emptyNet exDiseaseModules exDrugsTwo none "d0"
      none 5 42 [] = Except.ok exDfTwo := by
  simp [predict_all, exDiseaseModules, exDrugsTwo, List.lookup, enumeratePairs,
    truncatePairs, compute_tqab_batch, compute_pqab_batch, cqabStage,
    tqab_emptyNet, pqab_emptyNet, ebind_ok, buildRecords, mkRecord,
    sortValuesDesc, List.insertionSort, List.orderedInsert, scoreLE,
    exDfTwo, zeroRec, pair_beq]

theorem eval_predict_two_sig :
    predict_all zeroCorr zeroStd emptyNet exDiseaseModules exDrugsTwo (some exSigs)
      "d0" none 5 42 [] = Except.ok exDfTwo := by
  simp [predict_all, exDiseaseModules, exDrugsTwo, exSigs, List.lookup,
    enumeratePairs, truncatePairs, compute_tqab_batch, compute_pqab_batch,
    cqabStage, compute_cqab_batch, compute_cqab, transcriptional_similarityQ,
    compute_correlationQ, commonGenes, signedDrugSig, alignedVals, zeroCorr,
    tqab_emptyNet, pqab_emptyNet, ebind_ok, buildRecords, mkRecord,
    sortValuesDesc, List.insertionSort, List.orderedInsert, scoreLE,
    exDfTwo, zeroRec, pair_beq]

theorem buildDegreeBins_raises (degrees : List (String × ℕ)) (n_bins : ℕ)
    (h : degrees ≠ []) :
    buildDegreeBins degrees n_bins = Except.error getBinArityError := by
  rcases degrees with _ | ⟨gd, rest⟩
  · exact absurd rfl h
  · simp [buildDegreeBins, List.foldlM, getBinCall, ebind_err]

theorem dpr_raises (G : PyGraph) (module : List String) (n : ℕ) (seed : Option ℤ)
    (stream : List ℕ)
    (h : module.dedup.filter (fun g => G.nodes.contains g) ≠ []) :
    degree_preserving_randomization G module n seed stream =
      Except.error getBinArityError := by
  have hnodes : G.nodes ≠ [] := by
    intro hnil
    refine h ?_
    rw [hnil]
    simp
  have hdeg : G.nodes.map (fun v => (v, G.degreeOf v)) ≠ [] := by
    simpa using hnodes
  simp only [degree_preserving_randomization]
  rw [if_neg (by simpa [List.length_eq_zero] using h)]
  rw [buildDegreeBins_raises _ _ hdeg]
  rfl

theorem cnp_raises (stdFn : List ℚ → ℚ) (G : PyGraph) (q module : List String)
    (n : ℕ) (seed : Option ℤ) (stream : List ℕ)
    (h : module.dedup.filter (fun g => G.nodes.contains g) ≠ []) :
    compute_normalized_proximity stdFn G q module n seed stream =
      Except.error getBinArityError := by
  simp [compute_normalized_proximity, dpr_raises G module n seed stream h, ebind_err]

/-! ## Claim theorems -/

/-- C1: for every disease and every enumerated drug pair, the emitted
prediction record satisfies `prediction_score = tqab + pqab + cqab` exactly,
with no rescaling of the three components before summation. -/
theorem prediction_score_composition
    (corrFn : List ℚ → List ℚ → ℚ) (stdFn : List ℚ → ℚ) (network : PyGraph)
    (dms : List (String × List String))
    (drms : List (String × List String × List String))
    (sigs : Option (List (String × List (String × ℚ)))) (disease : String)
    (mp : Option ℕ) (n : ℕ) (seed : ℤ) (stream : List ℕ)
    (df : List PredictionRecord) (r : PredictionRecord)
    (h : predict_all corrFn stdFn network dms drms sigs disease mp n seed stream =
      Except.ok df)
    (hr : r ∈ df) :
    r.prediction_score = r.tqab + r.pqab + r.cqab := by
  rcases hQ : dms.lookup disease with _ | Q
  · simp [predict_all, hQ] at h
  · obtain ⟨pqv, _, rfl⟩ := predict_all_ok_elim hQ h
    rw [mem_sortValuesDesc] at hr
    obtain ⟨p, _, rfl⟩ := List.mem_map.mp hr
    rfl

/-- Witness for C1 at a concrete run: the emitted table contains a record
and the theorem's composition equation holds for it. -/
theorem prediction_score_composition_witness :
    (predict_all zeroCorr zeroStd emptyNet exDiseaseModules exDrugsFive none "d0"
      none 5 42 [] = Except.ok exDfFive) ∧
    zeroRec "c" "b" ∈ exDfFive ∧
    (zeroRec "c" "b").prediction_score =
      (zeroRec "c" "b").tqab + (zeroRec "c" "b").pqab + (zeroRec "c" "b").cqab :=
  ⟨eval_predict_five, by simp [exDfFive],
    prediction_score_composition zeroCorr zeroStd emptyNet exDiseaseModules
      exDrugsFive none "d0" none 5 42 [] exDfFive (zeroRec "c" "b")
      eval_predict_five (by simp [exDfFive])⟩

/-- C6: the topology classifier is total and assigns exactly the documented
class and score in each of the three separation/proximity cases. -/
theorem tqab_classification (G : PyGraph) (Q MA MB : List String) :
    (0 < separation_score G MA MB ∧ shortest_path_distance G MA Q < 3 ∧
        shortest_path_distance G MB Q < 3 →
      compute_tqab G Q MA MB =
        (1 - (shortest_path_distance G MA Q + shortest_path_distance G MB Q) / 2 / 10,
          "complementary")) ∧
    (0 < separation_score G MA MB ∧
        ¬(shortest_path_distance G MA Q < 3 ∧ shortest_path_distance G MB Q < 3) →
      compute_tqab G Q MA MB =
        (1 / 2 - (shortest_path_distance G MA Q + shortest_path_distance G MB Q) / 2 / 10,
          "intermediate")) ∧
    (separation_score G MA MB ≤ 0 →
      compute_tqab G Q MA MB = (-|separation_score G MA MB| / 5, "redundant")) ∧
    ((compute_tqab G Q MA MB).2 = "complementary" ∨
      (compute_tqab G Q MA MB).2 = "intermediate" ∨
      (compute_tqab G Q MA MB).2 = "redundant") := by
  by_cases hs : 0 < separation_score G MA MB
  · by_cases hd : shortest_path_distance G MA Q < 3 ∧ shortest_path_distance G MB Q < 3
    · refine ⟨fun _ => ?_, fun hcon => absurd hd hcon.2,
        fun hcon => absurd hs (not_lt.mpr hcon), Or.inl ?_⟩ <;>
        simp [compute_tqab, hs, hd.1, hd.2]
    · refine ⟨fun hcon => absurd hcon.2 hd, fun _ => ?_,
        fun hcon => absurd hs (not_lt.mpr hcon), Or.inr (Or.inl ?_)⟩ <;>
        simp [compute_tqab, hs, hd]
  · refine ⟨fun hcon => absurd hcon.1 hs, fun hcon => absurd hcon.1 hs,
      fun _ => ?_, Or.inr (Or.inr ?_)⟩ <;>
      simp [compute_tqab, hs]

/-- Witness for C6 in the redundant case at a concrete input. -/
theorem tqab_classification_witness :
    separation_score emptyNet ["u1"] ["u2"] ≤ 0 ∧
    compute_tqab emptyNet ["q1"] ["u1"] ["u2"] =
      (-|separation_score emptyNet ["u1"] ["u2"]| / 5, "redundant") :=
  ⟨by norm_num [separation_score, spd_emptyNet],
    (tqab_classification emptyNet ["q1"] ["u1"] ["u2"]).2.2.1
      (by norm_num [separation_score, spd_emptyNet])⟩

/-- C5 counterexample: a concrete run in which the emitted table has tied
scores but is not ordered lexicographically on `(drug_a, drug_b)`: the order
is the reverse of the enumeration order, `(c,b), (a,b), (a,c)`. -/
theorem sort_tie_break_counterexample :
    (predict_all zeroCorr zeroStd emptyNet exDiseaseModules exDrugsFive none "d0"
      none 5 42 [] = Except.ok exDfFive) ∧
    exDfFive.map (fun r => (r.drug_a, r.drug_b)) = [("c", "b"), ("a", "b"), ("a", "c")] ∧
    (∀ r ∈ exDfFive, r.prediction_score = 0) ∧
    ¬ exDfFive.Pairwise specTieOrder :=
  ⟨eval_predict_five, by decide, by decide, by decide⟩

/-- C5 as amended: the emitted table is sorted descending by
`prediction_score`; no tie-break beyond the underlying stable-sort-reverse
order is applied. -/
theorem predictions_sorted_descending
    (corrFn : List ℚ → List ℚ → ℚ) (stdFn : List ℚ → ℚ) (network : PyGraph)
    (dms : List (String × List String))
    (drms : List (String × List String × List String))
    (sigs : Option (List (String × List (String × ℚ)))) (disease : String)
    (mp : Option ℕ) (n : ℕ) (seed : ℤ) (stream : List ℕ)
    (df : List PredictionRecord)
    (h : predict_all corrFn stdFn network dms drms sigs disease mp n seed stream =
      Except.ok df) :
    df.Pairwise (fun r1 r2 => r2.prediction_score ≤ r1.prediction_score) := by
  rcases hQ : dms.lookup disease with _ | Q
  · simp [predict_all, hQ] at h
  · obtain ⟨pqv, _, rfl⟩ := predict_all_ok_elim hQ h
    exact pairwise_sortValuesDesc _

/-- Witness for the amended C5 at a concrete run. -/
theorem predictions_sorted_descending_witness :
    (predict_all zeroCorr zeroStd emptyNet exDiseaseModules exDrugsFive none "d0"
      none 5 42 [] = Except.ok exDfFive) ∧
    exDfFive.Pairwise (fun r1 r2 => r2.prediction_score ≤ r1.prediction_score) :=
  ⟨eval_predict_five,
    predictions_sorted_descending zeroCorr zeroStd emptyNet exDiseaseModules
      exDrugsFive none "d0" none 5 42 [] exDfFive eval_predict_five⟩

/-- C7 as amended: every enumerated pair yields exactly one emitted record
(none is dropped); a missing T result yields `tqab = 0` with the
`topology_class` flag `"unknown"`, and a missing C result yields zero
transcriptional scores but no flag. -/
theorem every_pair_emitted
    (corrFn : List ℚ → List ℚ → ℚ) (stdFn : List ℚ → ℚ) (network : PyGraph)
    (dms : List (String × List String))
    (drms : List (String × List String × List String))
    (sigs : Option (List (String × List (String × ℚ)))) (disease : String)
    (mp : Option ℕ) (n : ℕ) (seed : ℤ) (stream : List ℕ) (Q : List String)
    (df : List PredictionRecord)
    (hQ : dms.lookup disease = some Q)
    (h : predict_all corrFn stdFn network dms drms sigs disease mp n seed stream =
      Except.ok df) :
    df.length = (truncatePairs mp (enumeratePairs (drms.map (fun d => d.1)))).length ∧
    ∀ p ∈ truncatePairs mp (enumeratePairs (drms.map (fun d => d.1))),
      ∃ r ∈ df, r.drug_a = p.1 ∧ r.drug_b = p.2 ∧
        ((compute_tqab_batch network Q
            (drms.map (fun d => (d.1, (d.2.1 ++ d.2.2).dedup)))
            (truncatePairs mp (enumeratePairs (drms.map (fun d => d.1))))).lookup p =
              none →
          r.tqab = 0 ∧ r.topology_class = "unknown") ∧
        ((cqabStage corrFn sigs drms disease
            (truncatePairs mp (enumeratePairs (drms.map (fun d => d.1))))).lookup p =
              none →
          r.cqab = 0 ∧ r.cqa = 0 ∧ r.cqb = 0) := by
  obtain ⟨pqv, _, rfl⟩ := predict_all_ok_elim hQ h
  constructor
  · rw [length_sortValuesDesc]
    simp [buildRecords]
  · intro p hp
    refine ⟨mkRecord disease p _ pqv _,
      mem_sortValuesDesc.mpr (List.mem_map_of_mem _ hp), rfl, rfl, ?_, ?_⟩
    · intro hnone
      constructor <;> simp [mkRecord, hnone]
    · intro hnone
      refine ⟨?_, ?_, ?_⟩ <;> simp [mkRecord, hnone]

/-- Witness for the amended C7 at a concrete run. -/
theorem every_pair_emitted_witness :
    (exDiseaseModules.lookup "d0" = some ["q1"]) ∧
    (predict_all zeroCorr zeroStd emptyNet exDiseaseModules exDrugsTwo none "d0"
      none 5 42 [] = Except.ok exDfTwo) ∧
    exDfTwo.length =
      (truncatePairs none (enumeratePairs (exDrugsTwo.map (fun d => d.1)))).length :=
  ⟨by decide, eval_predict_two_nosig,
    (every_pair_emitted zeroCorr zeroStd emptyNet exDiseaseModules exDrugsTwo
      none "d0" none 5 42 [] ["q1"] exDfTwo (by decide) eval_predict_two_nosig).1⟩

/-- C7 counterexample: a run in which the C stage is skipped entirely (no
signatures, so its result is missing for every pair) emits a table identical
to the run in which the C stage succeeds with zero scores — the emitted
record carries no flag for the missing C result, only the zero default. -/
theorem stage_failure_flag_counterexample :
    (predict_all zeroCorr zeroStd emptyNet exDiseaseModules exDrugsTwo (some exSigs)
      "d0" none 5 42 [] = Except.ok exDfTwo) ∧
    (predict_all zeroCorr zeroStd emptyNet exDiseaseModules exDrugsTwo none "d0"
      none 5 42 [] = Except.ok exDfTwo) ∧
    cqabStage zeroCorr none exDrugsTwo "d0" [("a", "b")] = [] ∧
    exDfTwo ≠ [] :=
  ⟨eval_predict_two_sig, eval_predict_two_nosig, rfl, by decide⟩

/-- C2: `null_models.py` references `Optional` and `Tuple` without importing
them, both `_get_bin` call sites pass incompatible arguments, and for any
module with a gene in the network the sampler and both proximity entry
points fail rather than return. -/
theorem null_models_raises
    (G : PyGraph) (Q module ma mb : List String) (n : ℕ) (seed : Option ℤ)
    (seedInt : ℤ) (stdFn : List ℚ → ℚ) (stream : List ℕ)
    (h : module.dedup.filter (fun g => G.nodes.contains g) ≠ []) :
    (resolveGlobal "Optional" = Except.error (PyErr.nameError "Optional") ∧
      resolveGlobal "Tuple" = Except.error (PyErr.nameError "Tuple")) ∧
    (∀ a b c : PyVal, (getBinCall [a, b, c]).isOk = false) ∧
    (∀ (d : ℚ) (bins : List (List String)), 2 ≤ bins.length →
      (getBinCall [PyVal.num d,
        PyVal.list (bins.map (fun bl => PyVal.list (bl.map PyVal.str)))]).isOk =
        false) ∧
    (degree_preserving_randomization G module n seed stream).isOk = false ∧
    (compute_normalized_proximity stdFn G Q module n seed stream).isOk = false ∧
    (callDegreePreservingRandomization G module n seed stream).isOk = false ∧
    (callComputeNormalizedProximity stdFn G Q module n seed stream).isOk = false ∧
    (callComputePqab stdFn G Q ma mb n seedInt stream).isOk = false := by
  refine ⟨⟨rfl, rfl⟩, fun a b c => rfl, ?_, ?_, ?_, rfl, rfl, rfl⟩
  · intro d bins h2
    rcases bins with _ | ⟨b1, _ | ⟨b2, rest⟩⟩
    · simp at h2
    · simp at h2
    · rfl
  · rw [dpr_raises G module n seed stream h]
    rfl
  · rw [cnp_raises stdFn G Q module n seed stream h]
    rfl

/-- Witness for C2 at a concrete input with a module inside the network. -/
theorem null_models_raises_witness :
    ((["a"] : List String).dedup.filter (fun g => tinyGraph.nodes.contains g) ≠ []) ∧
    (compute_normalized_proximity zeroStd tinyGraph ["q"] ["a"] 3 (some 1) []).isOk =
      false :=
  ⟨by decide,
    (null_models_raises tinyGraph ["q"] ["a"] ["x"] ["y"] 3 (some 1) 1 zeroStd []
      (by decide)).2.2.2.2.1⟩

/-- C3: evaluating the sampling loop on a two-gene module whose bin pool is
shared shows a drawn sample of only one distinct member (`random.choice`
draws with replacement and the set collapses the duplicate), contradicting
the exact-size contract asserted by the spec and by
`tests/test_null_models.py`; moreover the actual call raises before sampling
at all. -/
theorem null_sample_size_shrinks :
    drawSample [0, 0] [["a", "b", "c", "d"]] [0, 0] = ["a"] ∧
    (drawSample [0, 0] [["a", "b", "c", "d"]] [0, 0]).length = 1 ∧
    ((["a", "b"] : List String).dedup.filter
      (fun g => tinyGraph.nodes.contains g)).length = 2 ∧
    (callDegreePreservingRandomization tinyGraph ["a", "b"] 100 (some 42)
      (List.replicate 200 0)).isOk = false :=
  ⟨by decide, by decide, by decide, rfl⟩

/-- C4 as amended: every invocation of the sampler, with any module, graph,
seed and sample count, fails identically with the import-time `NameError`
instead of producing a sequence of gene sets; the outcome is a pure function
of the arguments, so two identical invocations trivially agree. -/
theorem sampler_deterministic_failure
    (G : PyGraph) (module : List String) (n : ℕ) (seed : Option ℤ)
    (stream : List ℕ) :
    callDegreePreservingRandomization G module n seed stream =
      Except.error (PyErr.nameError "Optional") ∧
    ∀ l, callDegreePreservingRandomization G module n seed stream ≠ Except.ok l := by
  refine ⟨rfl, fun l hl => ?_⟩
  rw [show callDegreePreservingRandomization G module n seed stream =
    Except.error (PyErr.nameError "Optional") from rfl] at hl
  exact Except.noConfusion hl

/-- C4 counterexample: at a concrete invocation the sampler produces no
sequence of gene sets at all, so no two invocations can produce identical
sequences of gene sets. -/
theorem sampler_determinism_counterexample :
    (callDegreePreservingRandomization tinyGraph ["a", "b"] 100 (some 42) []).isOk =
      false := rfl

/-- Witness for the amended C4 at a concrete invocation. -/
theorem sampler_deterministic_failure_witness :
    callDegreePreservingRandomization tinyGraph ["a", "b"] 5 (some 42) [] =
      Except.error (PyErr.nameError "Optional") :=
  (sampler_deterministic_failure tinyGraph ["a", "b"] 5 (some 42) []).1

/-- C8: an empty source or target intersection yields the sentinel 1000; a
source with no path to any surviving target contributes exactly the sentinel
to the average; the average itself is total (no error is surfaced), being
the quotient shown in the third conjunct. -/
theorem dist_sentinel_behavior (G : PyGraph) (S T : List String) :
    ((S.dedup.filter (fun g => G.nodes.contains g) = [] ∨
        T.dedup.filter (fun g => G.nodes.contains g) = []) →
      shortest_path_distance G S T = 1000) ∧
    (∀ s : String,
      (∀ t ∈ T.dedup.filter (fun g => G.nodes.contains g), G.dist s t = none) →
      srcMinDist G s (T.dedup.filter (fun g => G.nodes.contains g)) 1000 = 1000) ∧
    (S.dedup.filter (fun g => G.nodes.contains g) ≠ [] →
      T.dedup.filter (fun g => G.nodes.contains g) ≠ [] →
      shortest_path_distance G S T =
        ((S.dedup.filter (fun g => G.nodes.contains g)).map
          (fun s => srcMinDist G s
            (T.dedup.filter (fun g => G.nodes.contains g)) 1000)).sum /
          ((S.dedup.filter (fun g => G.nodes.contains g)).length : ℚ)) := by
  refine ⟨?_, ?_, ?_⟩
  · intro h
    simp only [shortest_path_distance]
    rw [if_pos h]
  · intro s hnone
    exact srcMinDist_all_none G s _ 1000 hnone
  · intro h1 h2
    simp only [shortest_path_distance]
    rw [if_neg (not_or.mpr ⟨h1, h2⟩)]

/-- Witness for C8: scenario S6 (isolated vertex), both for an empty source
intersection and for an unreachable source. -/
theorem dist_sentinel_behavior_witness :
    ((["nope"].dedup.filter (fun g => pathS6.nodes.contains g) = []) ∧
      shortest_path_distance pathS6 ["nope"] ["E"] = 1000) ∧
    ((∀ t ∈ ["E"].dedup.filter (fun g => pathS6.nodes.contains g),
        pathS6.dist "Z" t = none) ∧
      srcMinDist pathS6 "Z" (["E"].dedup.filter (fun g => pathS6.nodes.contains g))
        1000 = 1000) :=
  ⟨⟨by decide, (dist_sentinel_behavior pathS6 ["nope"] ["E"]).1 (Or.inl (by decide))⟩,
    ⟨by decide, (dist_sentinel_behavior pathS6 ["Z"] ["E"]).2.1 "Z" (by decide)⟩⟩

/-- C9: the self-distance floor — `dist_set_to_set(X, X) = 0` for every
non-empty gene set contained in the vertex set. -/
theorem self_distance_floor (G : PyGraph) (X : List String)
    (hne : X ≠ []) (hsub : ∀ g ∈ X, G.nodes.contains g = true) :
    shortest_path_distance G X X = 0 := by
  have hF : X.dedup.filter (fun g => G.nodes.contains g) = X.dedup :=
    List.filter_eq_self.mpr (fun g hg => hsub g (List.mem_dedup.mp hg))
  have hFne : X.dedup ≠ [] := by
    obtain ⟨a, ha⟩ := List.exists_mem_of_ne_nil X hne
    exact List.ne_nil_of_mem (List.mem_dedup.mpr ha)
  have hzero : ∀ s ∈ X.dedup, srcMinDist G s X.dedup 1000 = 0 := by
    intro s hs
    refine le_antisymm ?_ (srcMinDist_nonneg G s _ _ (by norm_num))
    have := srcMinDist_le_dist G s X.dedup 1000 s 0 hs (pyGraph_dist_self G s)
    simpa using this
  simp only [shortest_path_distance, hF]
  rw [if_neg (by simp [hFne])]
  rw [List.sum_eq_zero, zero_div]
  intro x hx
  obtain ⟨s, hs, rfl⟩ := List.mem_map.mp hx
  exact hzero s hs

/-- Witness for C9 on a concrete two-vertex subset of the path graph. -/
theorem self_distance_floor_witness :
    ((["A", "B"] : List String) ≠ [] ∧
      (∀ g ∈ (["A", "B"] : List String), pathS6.nodes.contains g = true)) ∧
    shortest_path_distance pathS6 ["A", "B"] ["A", "B"] = 0 :=
  ⟨⟨by decide, by decide⟩,
    self_distance_floor pathS6 ["A", "B"] (by decide) (by decide)⟩

theorem eval_similarity_S4_A :
    transcriptional_similarity sigS4 ["G3"] ["G1", "G2"] =
      (3 / 2 : ℝ) / (Real.sqrt 2 * Real.sqrt (3 / 2)) := by
  have hsig : signedDrugSig ["G3"] ["G1", "G2"] = [("G3", 1), ("G1", -1), ("G2", -1)] := by
    decide
  have hcom : commonGenes sigS4 (signedDrugSig ["G3"] ["G1", "G2"]) =
      ["G1", "G2", "G3"] := by decide
  have hvA : alignedVals sigS4 ["G1", "G2", "G3"] = [2, 3/2, -1] := rfl
  have hvB : alignedVals (signedDrugSig ["G3"] ["G1", "G2"]) ["G1", "G2", "G3"] =
      [-1, -1, 1] := by decide
  have hr1 : rankdata [2, 3/2, -1] = [3, 2, 1] := by
    norm_num [rankdata, List.filter]
  have hr2 : rankdata [-1, -1, 1] = [3/2, 3/2, 3] := by
    norm_num [rankdata, List.filter]
  have hst : pearsonStats [3, 2, 1] [3/2, 3/2, 3] = (-(3/2), 2, 3/2) := by
    norm_num [pearsonStats, List.zip]
  rw [transcriptional_similarity, compute_correlation]
  simp only [hcom, hvA, hvB]
  rw [if_neg (by norm_num)]
  rw [spearmanR, hr1, hr2, pearsonR, hst]
  rw [if_neg (by norm_num)]
  push_cast
  ring

theorem eval_similarity_S4_B :
    transcriptional_similarity sigS4 ["G1", "G2"] ["G3"] =
      -((3 / 2 : ℝ) / (Real.sqrt 2 * Real.sqrt (3 / 2))) := by
  have hcom : commonGenes sigS4 (signedDrugSig ["G1", "G2"] ["G3"]) =
      ["G1", "G2", "G3"] := by decide
  have hvA : alignedVals sigS4 ["G1", "G2", "G3"] = [2, 3/2, -1] := rfl
  have hvB : alignedVals (signedDrugSig ["G1", "G2"] ["G3"]) ["G1", "G2", "G3"] =
      [1, 1, -1] := by decide
  have hr1 : rankdata [2, 3/2, -1] = [3, 2, 1] := by
    norm_num [rankdata, List.filter]
  have hr2 : rankdata [1, 1, -1] = [5/2, 5/2, 1] := by
    norm_num [rankdata, List.filter]
  have hst : pearsonStats [3, 2, 1] [5/2, 5/2, 1] = (3/2, 2, 3/2) := by
    norm_num [pearsonStats, List.zip]
  rw [transcriptional_similarity, compute_correlation]
  simp only [hcom, hvA, hvB]
  rw [if_neg (by norm_num)]
  rw [spearmanR, hr1, hr2, pearsonR, hst]
  rw [if_neg (by norm_num)]
  push_cast
  ring

/-- C10: in scenario S4 the per-drug transcriptional scores satisfy
`c_A > 0 > c_B` and `c_A = -c_B`: drug A reverses the disease signature and
drug B mimics it, with exactly opposite Spearman-based scores. -/
theorem transcriptional_reversal_S4 :
    0 < transcriptional_similarity sigS4 ["G3"] ["G1", "G2"] ∧
    transcriptional_similarity sigS4 ["G1", "G2"] ["G3"] < 0 ∧
    transcriptional_similarity sigS4 ["G3"] ["G1", "G2"] =
      -transcriptional_similarity sigS4 ["G1", "G2"] ["G3"] := by
  have hpos : (0 : ℝ) < 3 / 2 / (Real.sqrt 2 * Real.sqrt (3 / 2)) :=
    div_pos (by norm_num)
      (mul_pos (Real.sqrt_pos.mpr (by norm_num)) (Real.sqrt_pos.mpr (by norm_num)))
  refine ⟨?_, ?_, ?_⟩
  · rw [eval_similarity_S4_A]
    exact hpos
  · rw [eval_similarity_S4_B]
    exact neg_lt_zero.mpr hpos
  · rw [eval_similarity_S4_A, eval_similarity_S4_B, neg_neg]

